import Mathlib

/-!
Verification development for the issuer-lib combined reconciliation engine.

The definitions below are a shallow embedding of the Go sources:

* `reconcileStatusPatch` and `reconcile` embed
  `IssuerReconciler.reconcileStatusPatch` and `IssuerReconciler.Reconcile`
  from `controllers/issuer_controller.go`.
* The `conditions` helpers, the `signer` error types, the
  `kubeutil.EventSource` registry and the request (CertificateRequest)
  reconciler are not part of the provided sources; they are modelled from
  the specification (and the message strings fixed by the integration
  tests) as noted on each definition.

State is passed explicitly: the object-store interactions of one
reconciliation pass (the `Get` result, the `IgnoreIssuer` result, the
`Check`/`Sign` result, the status-patch apply result) are inputs of the
pass, and the pass returns the status patch it produced, the error it
returns to the controller runtime, the events it emitted, whether the
`Check`/`Sign` callback was invoked, and the updated registry state.
-/

namespace IssuerLib

/-- Status value of a Kubernetes condition: True, False or Unknown
(`cmmeta.ConditionStatus`). -/
inductive ConditionStatus
  | condTrue
  | condFalse
  | condUnknown
  deriving DecidableEq, Repr

/-- A Ready condition: the status/reason/message/observedGeneration tuple
reported on both object kinds (`cmapi.IssuerCondition`, and the request's
condition which the spec gives the same shape). -/
structure IssuerCondition where
  condType : String
  status : ConditionStatus
  reason : String
  message : String
  observedGeneration : Int
  lastTransitionTime : Nat
  deriving DecidableEq, Repr

/-- A trust-anchor (issuer) object as seen by the reconciler: its
generation counter and its status conditions. -/
structure IssuerObject where
  generation : Int
  conditions : List IssuerCondition
  deriving DecidableEq, Repr

/-- Go error values relevant to the engine, as a closed sum: a plain error
built from a message, the three wrapper types of the `signer` package
(`PermanentError`, `PendingError`, `IssuerError`, each wrapping an inner
error and delegating `Error()` to it), and `fmt.Errorf`-style wrapping
that prepends text. -/
inductive GoError
  | base (msg : String)
  | permanentError (err : GoError)
  | pendingError (err : GoError)
  | issuerError (err : GoError)
  | wrapf (pre : String) (err : GoError)
  deriving DecidableEq, Repr

/-- The string produced by `Error()`: the wrapper types delegate to the
wrapped error, `fmt.Errorf` wrapping prepends its text. -/
def GoError.message : GoError → String
  | .base m => m
  | .permanentError e => e.message
  | .pendingError e => e.message
  | .issuerError e => e.message
  | .wrapf p e => p ++ e.message

/-- Embedding of `errors.As(err, &signer.PermanentError{})`: structural
matching that unwraps the error chain and succeeds iff a `PermanentError`
occurs at any depth. -/
def isPermanentError : GoError → Bool
  | .base _ => false
  | .permanentError _ => true
  | .pendingError e => isPermanentError e
  | .issuerError e => isPermanentError e
  | .wrapf _ e => isPermanentError e

/-- Embedding of `errors.As(err, &signer.PendingError{})`: structural
matching for the `PendingError` wrapper. -/
def isPendingError : GoError → Bool
  | .base _ => false
  | .permanentError e => isPendingError e
  | .pendingError _ => true
  | .issuerError e => isPendingError e
  | .wrapf _ e => isPendingError e

/-- Embedding of `errors.As(err, &signer.IssuerError{})`: structural
matching for the `IssuerError` wrapper, returning the wrapped error. -/
def asIssuerError : GoError → Option GoError
  | .base _ => none
  | .permanentError e => asIssuerError e
  | .pendingError e => asIssuerError e
  | .issuerError e => some e
  | .wrapf _ e => asIssuerError e

/-- The condition type both reconcilers manage (`cmapi.IssuerConditionReady`
and `cmapi.CertificateRequestConditionReady` are both named Ready). -/
def conditionTypeReady : String := "Ready"

/-- `v1alpha1.IssuerConditionReasonInitializing`. -/
def reasonInitializing : String := "Initializing"

/-- `v1alpha1.IssuerConditionReasonChecked`. -/
def reasonChecked : String := "Checked"

/-- `v1alpha1.IssuerConditionReasonPending` (also the request's Pending
reason `cmapi.CertificateRequestReasonPending`). -/
def reasonPending : String := "Pending"

/-- `v1alpha1.IssuerConditionReasonFailed` (also the request's Failed
reason). -/
def reasonFailed : String := "Failed"

/-- `cmapi.CertificateRequestReasonIssued`. -/
def reasonIssued : String := "Issued"

/-- Event constant `eventIssuerChecked` of `issuer_controller.go`. -/
def eventIssuerChecked : String := "Checked"

/-- Event constant `eventIssuerRetryableError` of `issuer_controller.go`. -/
def eventIssuerRetryableError : String := "RetryableError"

/-- Event constant `eventIssuerPermanentError` of `issuer_controller.go`. -/
def eventIssuerPermanentError : String := "PermanentError"

/-- `corev1.EventTypeNormal`. -/
def eventTypeNormal : String := "Normal"

/-- `corev1.EventTypeWarning`. -/
def eventTypeWarning : String := "Warning"

/-- A Kubernetes event recorded via `EventRecorder.Event`. -/
structure Event where
  eventType : String
  reason : String
  message : String
  deriving DecidableEq, Repr

/-- Modelled from the spec: `conditions.GetIssuerStatusCondition` (its
source is not included) returns the condition with the given type from
the condition list, if any. -/
def getIssuerStatusCondition (conds : List IssuerCondition) (t : String) :
    Option IssuerCondition :=
  conds.find? (fun c => decide (c.condType = t))

/-- Modelled from the spec: `conditions.SetIssuerStatusCondition` (its
source is not included) computes the new condition that the pass writes
into the status patch: status/reason/message as given,
observedGeneration = the object's current generation (spec S4.1), and
lastTransitionTime updated only when the status changed relative to the
existing condition (spec S4.1: standard condition semantics). -/
def setIssuerStatusCondition (now : Nat) (existing : List IssuerCondition)
    (generation : Int) (t : String) (status : ConditionStatus)
    (reason message : String) : IssuerCondition :=
  let newCond : IssuerCondition :=
    { condType := t, status := status, reason := reason, message := message,
      observedGeneration := generation, lastTransitionTime := now }
  match getIssuerStatusCondition existing t with
  | some old =>
      if old.status = status then
        { newCond with lastTransitionTime := old.lastTransitionTime }
      else newCond
  | none => newCond

/-- The in-memory Event Registry state for one trust-anchor kind: a map
from namespaced name to the last deposited error. -/
abbrev Registry : Type := List (String × GoError)

/-- Modelled from the spec: `kubeutil.EventSource.HasReportedError` (its
source is not included), the `consumeAndClear(kind, key)` operation of
the Cross-Reconciler Event Registry: an atomic read-then-delete of the
entry for the key, returning the consumed error (if any) and the registry
state with the key removed. -/
def hasReportedError (reg : Registry) (key : String) :
    Option GoError × Registry :=
  ((reg.find? (fun p => decide (p.1 = key))).map (fun p => p.2),
    reg.filter (fun p => decide (p.1 ≠ key)))

/-- Modelled from the spec: `deposit(kind, key, err)` of the
Cross-Reconciler Event Registry — last-write-wins set of the entry for
the key. -/
def reportError (reg : Registry) (key : String) (err : GoError) : Registry :=
  (key, err) :: reg.filter (fun p => decide (p.1 ≠ key))

/-- Result of `r.Client.Get` for the reconciled object: found with the
object's current state, a NotFound error, or any other error. -/
inductive GetResult
  | found (issuer : IssuerObject)
  | notFound
  | getError (msg : String)
  deriving DecidableEq, Repr

/-- The error value a reconciliation pass hands back to the controller
runtime: no error (done), `reconcile.TerminalError` (do not requeue), a
plain error (requeue with backoff), or the `utilerrors.NewAggregate` of a
patch-apply failure with the pass's own error. -/
inductive ReconcileError
  | noError
  | terminalError (err : GoError)
  | retryableError (err : GoError)
  | aggregateError (applyMsg : String) (nested : ReconcileError)
  deriving DecidableEq, Repr

/-- The inputs of one trust-anchor reconciliation pass, with the oracle
results of its store and callback interactions. `ignoreResult = none`
models a nil `IgnoreIssuer`; `checkResult = none` models `Check`
returning nil. -/
structure IssuerReconcilerInput where
  registry : Registry
  key : String
  getResult : GetResult
  ignoreResult : Option (Except String Bool)
  checkResult : Option GoError
  fieldOwner : String
  now : Nat
  deriving Repr

/-- What one call of `reconcileStatusPatch` produced: the status patch
(nil or the conditions it sets), the returned error, whether the `Check`
callback was invoked, the events recorded, and the registry state after
the pass. -/
structure StatusPatchOutput where
  patch : Option (List IssuerCondition)
  reconcileError : ReconcileError
  checkCalled : Bool
  events : List Event
  registry : Registry
  deriving DecidableEq, Repr

/-- The error selection of `reconcileStatusPatch` (issuer_controller.go
lines 192-199): when the current Ready condition is True and the registry
reported an error, that reported error is used; otherwise the Check
callback's result is used. -/
def effectiveCheckError (reported : Option GoError) (rc : IssuerCondition)
    (checkResult : Option GoError) : Option GoError :=
  if decide (rc.status = ConditionStatus.condTrue) && reported.isSome then reported
  else checkResult

/-- The isFailed test of `reconcileStatusPatch` (issuer_controller.go
lines 136-139): the Ready condition exists, has status False, reason
Failed, and observedGeneration >= the object's current generation. -/
def isTerminallyFailed (rc : Option IssuerCondition) (generation : Int) : Bool :=
  match rc with
  | some c =>
      decide (c.status = ConditionStatus.condFalse ∧
        c.reason = reasonFailed ∧ generation ≤ c.observedGeneration)
  | none => false

/-- Embedding of `IssuerReconciler.reconcileStatusPatch`
(issuer_controller.go lines 115-237). The registry consume
(`HasReportedError`) happens first, before the `Get`; then: NotFound →
done with nil patch; other get error → requeue with nil patch; terminally
Failed → done with nil patch; `IgnoreIssuer` error/true → requeue/done
with nil patch; no Ready condition → Initializing patch without calling
`Check`; otherwise the consumed error substitutes for `Check` only when
the current Ready condition is True, and the (possibly substituted) error
is classified via `errors.As(err, &signer.PermanentError{})`. -/
def reconcileStatusPatch (inp : IssuerReconcilerInput) : StatusPatchOutput :=
  let consumed := hasReportedError inp.registry inp.key
  let reported := consumed.1
  let registry := consumed.2
  match inp.getResult with
  | .notFound =>
      { patch := none, reconcileError := .noError, checkCalled := false,
        events := [], registry := registry }
  | .getError msg =>
      { patch := none,
        reconcileError := .retryableError (.base ("unexpected get error: " ++ msg)),
        checkCalled := false, events := [], registry := registry }
  | .found issuer =>
      let readyCondition := getIssuerStatusCondition issuer.conditions conditionTypeReady
      if isTerminallyFailed readyCondition issuer.generation then
        { patch := none, reconcileError := .noError, checkCalled := false,
          events := [], registry := registry }
      else
        match inp.ignoreResult with
        | some (.error msg) =>
            { patch := none,
              reconcileError :=
                .retryableError (.base ("failed to check if issuer should be ignored: " ++ msg)),
              checkCalled := false, events := [], registry := registry }
        | some (.ok true) =>
            { patch := none, reconcileError := .noError, checkCalled := false,
              events := [], registry := registry }
        | _ =>
            match readyCondition with
            | none =>
                let c := setIssuerStatusCondition inp.now issuer.conditions
                  issuer.generation conditionTypeReady ConditionStatus.condUnknown
                  reasonInitializing
                  (inp.fieldOwner ++ " has started reconciling this Issuer")
                { patch := some [c], reconcileError := .noError,
                  checkCalled := false, events := [], registry := registry }
            | some rc =>
                let fromRegistry : Bool :=
                  decide (rc.status = ConditionStatus.condTrue) && reported.isSome
                let err := effectiveCheckError reported rc inp.checkResult
                match err with
                | none =>
                    let c := setIssuerStatusCondition inp.now issuer.conditions
                      issuer.generation conditionTypeReady ConditionStatus.condTrue
                      reasonChecked "Succeeded checking the issuer"
                    { patch := some [c], reconcileError := .noError,
                      checkCalled := !fromRegistry,
                      events := [⟨eventTypeNormal, eventIssuerChecked, c.message⟩],
                      registry := registry }
                | some e =>
                    if isPermanentError e then
                      let c := setIssuerStatusCondition inp.now issuer.conditions
                        issuer.generation conditionTypeReady ConditionStatus.condFalse
                        reasonFailed ("Issuer has failed permanently: " ++ e.message)
                      { patch := some [c], reconcileError := .terminalError e,
                        checkCalled := !fromRegistry,
                        events := [⟨eventTypeWarning, eventIssuerPermanentError, c.message⟩],
                        registry := registry }
                    else
                      let c := setIssuerStatusCondition inp.now issuer.conditions
                        issuer.generation conditionTypeReady ConditionStatus.condFalse
                        reasonPending ("Issuer is not ready yet: " ++ e.message)
                      { patch := some [c], reconcileError := .retryableError e,
                        checkCalled := !fromRegistry,
                        events := [⟨eventTypeWarning, eventIssuerRetryableError, c.message⟩],
                        registry := registry }

/-- Result of the `r.Client.Status().Patch` call: applied, rejected with
NotFound, or any other apply error. -/
inductive PatchApplyResult
  | applySuccess
  | applyNotFound
  | applyFailed (msg : String)
  deriving DecidableEq, Repr

/-- What one call of `IssuerReconciler.Reconcile` produced.
`patchSubmitted` is the patch handed to `Status().Patch`, or none when no
patch call was made. -/
structure ReconcileOutput where
  reconcileError : ReconcileError
  patchSubmitted : Option (List IssuerCondition)
  checkCalled : Bool
  events : List Event
  registry : Registry
  deriving DecidableEq, Repr

/-- Embedding of `IssuerReconciler.Reconcile` (issuer_controller.go lines
79-113): runs `reconcileStatusPatch`; a nil patch is returned as-is with
the pass's error; otherwise the patch is generated and applied
(`ssaclient.GenerateIssuerStatusPatch` is not included in the sources and
is modelled from the spec S4.5, whose `build` contract is total), a
NotFound on apply is treated as done with no error, and any other apply
error is aggregated with the pass's error and requeued. -/
def reconcile (inp : IssuerReconcilerInput) (applyResult : PatchApplyResult) :
    ReconcileOutput :=
  let o := reconcileStatusPatch inp
  match o.patch with
  | none =>
      { reconcileError := o.reconcileError, patchSubmitted := none,
        checkCalled := o.checkCalled, events := o.events, registry := o.registry }
  | some p =>
      match applyResult with
      | .applySuccess =>
          { reconcileError := o.reconcileError, patchSubmitted := some p,
            checkCalled := o.checkCalled, events := o.events, registry := o.registry }
      | .applyNotFound =>
          { reconcileError := .noError, patchSubmitted := some p,
            checkCalled := o.checkCalled, events := o.events, registry := o.registry }
      | .applyFailed msg =>
          { reconcileError := .aggregateError msg o.reconcileError,
            patchSubmitted := some p,
            checkCalled := o.checkCalled, events := o.events, registry := o.registry }

/-- A request (CertificateRequest) object as seen by the request
reconciler: its generation and its conditions (the spec gives the
request's Ready condition the same shape as the trust-anchor's). -/
structure RequestObject where
  generation : Int
  conditions : List IssuerCondition
  deriving DecidableEq, Repr

/-- The inputs of one request reconciliation pass: the request object,
the `Get` result for the referenced trust-anchor, the oracle result of
the `Sign` callback (a PEM bundle or an error), the per-object retry
record (`firstFailureTime`, unset when healthy), the configured
`MaxRetryDuration`, and the clock. -/
structure RequestReconcilerInput where
  request : RequestObject
  issuerGet : GetResult
  signResult : Except GoError String
  firstFailureTime : Option Nat
  maxRetryDuration : Nat
  now : Nat
  deriving Repr

/-- What one request reconciliation pass produced: the status patch, the
returned error, whether `Sign` was invoked, the signed bundle stored on
success, the error deposited into the Event Registry (if any), and the
updated retry record. -/
structure RequestPatchOutput where
  patch : Option (List IssuerCondition)
  reconcileError : ReconcileError
  signCalled : Bool
  signedBundle : Option String
  deposited : Option GoError
  firstFailureTime : Option Nat
  deriving DecidableEq, Repr

/-- Modelled from the spec: the Request Reconciler's status-patch pass
(its source, the CertificateRequest controller, is not included; the
message strings are the ones fixed by the integration test in the
sources). Per spec S4.1/S4.6/S4.7/S4.3: a terminally Failed request is
skipped; a request with no Ready condition is initialized to
Unknown/Initializing; a missing trust-anchor, a stale trust-anchor
condition (observedGeneration < generation) and a not-True trust-anchor
condition each yield a Pending condition without calling `Sign`, the
not-True case echoing the trust-anchor's own reason and message verbatim;
otherwise `Sign` runs and its error is classified: an `IssuerError` is
deposited into the Event Registry, a `PermanentError` fails the request
permanently, a `PendingError` retries without touching the retry record,
and any other (transient) error sets the retry record on first failure
and is promoted to a permanent failure when the incident has lasted
longer than `MaxRetryDuration`. -/
def reconcileRequestStatusPatch (inp : RequestReconcilerInput) :
    RequestPatchOutput :=
  let req := inp.request
  let mkCond := fun (status : ConditionStatus) (reason msg : String) =>
    setIssuerStatusCondition inp.now req.conditions req.generation
      conditionTypeReady status reason msg
  let rc := getIssuerStatusCondition req.conditions conditionTypeReady
  if isTerminallyFailed rc req.generation then
    { patch := none, reconcileError := .noError, signCalled := false,
      signedBundle := none, deposited := none,
      firstFailureTime := inp.firstFailureTime }
  else
    match rc with
    | none =>
        let c := mkCond ConditionStatus.condUnknown reasonInitializing
          "Started reconciling this CertificateRequest"
        { patch := some [c], reconcileError := .noError, signCalled := false,
          signedBundle := none, deposited := none,
          firstFailureTime := inp.firstFailureTime }
    | some _ =>
        match inp.issuerGet with
        | .notFound =>
            let c := mkCond ConditionStatus.condFalse reasonPending
              "Issuer does not exist. Waiting for it to be created."
            { patch := some [c], reconcileError := .noError, signCalled := false,
              signedBundle := none, deposited := none,
              firstFailureTime := inp.firstFailureTime }
        | .getError msg =>
            { patch := none,
              reconcileError := .retryableError (.base ("unexpected get error: " ++ msg)),
              signCalled := false, signedBundle := none, deposited := none,
              firstFailureTime := inp.firstFailureTime }
        | .found issuer =>
            let irc := getIssuerStatusCondition issuer.conditions conditionTypeReady
            let outdated := fun (_ : Unit) =>
              let c := mkCond ConditionStatus.condFalse reasonPending
                "Issuer is not Ready yet. Current ready condition is outdated. Waiting for it to become ready."
              ({ patch := some [c], reconcileError := .noError,
                 signCalled := false, signedBundle := none, deposited := none,
                 firstFailureTime := inp.firstFailureTime } : RequestPatchOutput)
            match irc with
            | none => outdated ()
            | some ic =>
                if ic.observedGeneration < issuer.generation then
                  outdated ()
                else if ic.status = ConditionStatus.condTrue then
                  match inp.signResult with
                  | .ok bundle =>
                      let c := mkCond ConditionStatus.condTrue reasonIssued "issued"
                      { patch := some [c], reconcileError := .noError,
                        signCalled := true, signedBundle := some bundle,
                        deposited := none, firstFailureTime := none }
                  | .error e =>
                      match asIssuerError e with
                      | some inner =>
                          let c := mkCond ConditionStatus.condFalse reasonPending
                            "Issuer is not Ready yet. Current ready condition is outdated. Waiting for it to become ready."
                          { patch := some [c], reconcileError := .retryableError e,
                            signCalled := true, signedBundle := none,
                            deposited := some inner,
                            firstFailureTime := inp.firstFailureTime }
                      | none =>
                          let fft :=
                            if isPermanentError e || isPendingError e then
                              inp.firstFailureTime
                            else some (inp.firstFailureTime.getD inp.now)
                          let pastMaxRetry : Bool :=
                            decide (inp.maxRetryDuration <
                              inp.now - (inp.firstFailureTime.getD inp.now))
                          if isPermanentError e ||
                              (!isPendingError e && pastMaxRetry) then
                            let c := mkCond ConditionStatus.condFalse reasonFailed
                              ("Failed permanently to sign the CertificateRequest: " ++ e.message)
                            { patch := some [c], reconcileError := .terminalError e,
                              signCalled := true, signedBundle := none,
                              deposited := none, firstFailureTime := fft }
                          else
                            let c := mkCond ConditionStatus.condFalse reasonPending
                              ("Failed to sign the CertificateRequest, will retry: " ++ e.message)
                            { patch := some [c], reconcileError := .retryableError e,
                              signCalled := true, signedBundle := none,
                              deposited := none, firstFailureTime := fft }
                else
                  let c := mkCond ConditionStatus.condFalse reasonPending
                    ("Issuer is not Ready yet. Current ready condition is \"" ++
                      ic.reason ++ "\": " ++ ic.message ++ ". Waiting for it to become ready.")
                  { patch := some [c], reconcileError := .noError,
                    signCalled := false, signedBundle := none, deposited := none,
                    firstFailureTime := inp.firstFailureTime }

/-! Theorems -/

/-- C1: for every issuer object whose current Ready condition has status
False, reason Failed, and observedGeneration >= the object's current
generation, a reconciliation pass returns done immediately: the Check
callback is never invoked, no status patch is produced, no error is
returned and no event is emitted. Because the conclusion holds for every
such pass and the pass writes nothing, it holds on every subsequent pass
until the object's generation increases past the condition's
observedGeneration. -/
theorem permanentlyFailedIssuerFreezesReconciliation
    (inp : IssuerReconcilerInput) (issuer : IssuerObject) (c : IssuerCondition)
    (hget : inp.getResult = GetResult.found issuer)
    (hc : getIssuerStatusCondition issuer.conditions conditionTypeReady = some c)
    (hstatus : c.status = ConditionStatus.condFalse)
    (hreason : c.reason = reasonFailed)
    (hgen : issuer.generation ≤ c.observedGeneration) :
    reconcileStatusPatch inp =
      { patch := none, reconcileError := ReconcileError.noError,
        checkCalled := false, events := [],
        registry := (hasReportedError inp.registry inp.key).2 } := by
  simp [reconcileStatusPatch, hget, hc, isTerminallyFailed, hstatus, hreason, hgen]

/-- Fixture: a terminal Ready=False/Failed condition observed at
generation 70. -/
def wFailedCond : IssuerCondition :=
  ⟨"Ready", ConditionStatus.condFalse, "Failed",
    "Issuer has failed permanently: bad config", 70, 3⟩

/-- Fixture: an issuer at generation 70 carrying `wFailedCond`. -/
def wFailedIssuer : IssuerObject := ⟨70, [wFailedCond]⟩

/-- Fixture: a pass over `wFailedIssuer` with a deposited registry error
and a Check oracle that would fail. -/
def wFailedInput : IssuerReconcilerInput :=
  ⟨[("ns1/issuer-1", GoError.base "boom")], "ns1/issuer-1",
    GetResult.found wFailedIssuer, none, some (GoError.base "x"), "owner", 9⟩

/-- Concrete instantiation of `permanentlyFailedIssuerFreezesReconciliation`. -/
theorem permanentlyFailedIssuerFreezesReconciliation_witness :
    reconcileStatusPatch wFailedInput =
      { patch := none, reconcileError := ReconcileError.noError,
        checkCalled := false, events := [], registry := [] } := by
  have h := permanentlyFailedIssuerFreezesReconciliation wFailedInput
    wFailedIssuer wFailedCond rfl (by decide) rfl rfl (by decide)
  simpa [wFailedInput, hasReportedError] using h

/-- Helper: the registry state returned by a trust-anchor reconciliation
pass is always the consumed-and-cleared one, in every branch of the pass
(the consume happens before the object is fetched). -/
theorem reconcileStatusPatch_registry (inp : IssuerReconcilerInput) :
    (reconcileStatusPatch inp).registry =
      (hasReportedError inp.registry inp.key).2 := by
  rcases inp with ⟨reg, key, gr, ir, cr, fo, now⟩
  cases gr <;> dsimp [reconcileStatusPatch] <;> (repeat' split) <;> try rfl

/-- The tail of `reconcileStatusPatch` once the pass has reached the
check stage: the effective error (registry-reported when the condition is
True, Check's result otherwise) is classified and turned into the
condition, event and result. -/
def checkStageOutput (inp : IssuerReconcilerInput) (issuer : IssuerObject)
    (rc : IssuerCondition) : StatusPatchOutput :=
  let reported := (hasReportedError inp.registry inp.key).1
  let registry := (hasReportedError inp.registry inp.key).2
  let fromRegistry : Bool :=
    decide (rc.status = ConditionStatus.condTrue) && reported.isSome
  match effectiveCheckError reported rc inp.checkResult with
  | none =>
      let c := setIssuerStatusCondition inp.now issuer.conditions
        issuer.generation conditionTypeReady ConditionStatus.condTrue
        reasonChecked "Succeeded checking the issuer"
      { patch := some [c], reconcileError := .noError,
        checkCalled := !fromRegistry,
        events := [⟨eventTypeNormal, eventIssuerChecked, c.message⟩],
        registry := registry }
  | some e =>
      if isPermanentError e then
        let c := setIssuerStatusCondition inp.now issuer.conditions
          issuer.generation conditionTypeReady ConditionStatus.condFalse
          reasonFailed ("Issuer has failed permanently: " ++ e.message)
        { patch := some [c], reconcileError := .terminalError e,
          checkCalled := !fromRegistry,
          events := [⟨eventTypeWarning, eventIssuerPermanentError, c.message⟩],
          registry := registry }
      else
        let c := setIssuerStatusCondition inp.now issuer.conditions
          issuer.generation conditionTypeReady ConditionStatus.condFalse
          reasonPending ("Issuer is not ready yet: " ++ e.message)
        { patch := some [c], reconcileError := .retryableError e,
          checkCalled := !fromRegistry,
          events := [⟨eventTypeWarning, eventIssuerRetryableError, c.message⟩],
          registry := registry }

/-- Helper: a pass that fetches an issuer with a Ready condition, is not
terminally Failed, and is not ignored, reduces to `checkStageOutput`. -/
theorem reconcileStatusPatch_eq_checkStage
    (inp : IssuerReconcilerInput) (issuer : IssuerObject) (rc : IssuerCondition)
    (hget : inp.getResult = GetResult.found issuer)
    (hc : getIssuerStatusCondition issuer.conditions conditionTypeReady = some rc)
    (hterm : isTerminallyFailed (some rc) issuer.generation = false)
    (hign : inp.ignoreResult = none ∨ inp.ignoreResult = some (Except.ok false)) :
    reconcileStatusPatch inp = checkStageOutput inp issuer rc := by
  rcases hign with hign | hign <;>
    simp [reconcileStatusPatch, checkStageOutput, hget, hc, hterm, hign]

/-- C2 (amended): on every trust-anchor reconciliation pass the Event
Registry entry for the object's key is consumed-and-cleared before any
other step of the pass — the registry state the pass leaves behind never
contains the key, whatever the pass outcome, including when the object
fetch fails — and when the pass reaches the check stage (a Ready
condition exists, the object is not terminally Failed and not ignored),
the consumed error replaces the Check outcome exactly when the current
Ready condition has status True: in that case Check is not invoked and
the consumed error is classified in its place, and when the condition is
not True or no error was deposited the pass runs the Check callback
itself. -/
theorem registryConsumedFirstAndGatedOnReadyTrue (inp : IssuerReconcilerInput) :
    (∀ p ∈ (reconcileStatusPatch inp).registry, p.1 ≠ inp.key) ∧
    (∀ issuer rc, inp.getResult = GetResult.found issuer →
      getIssuerStatusCondition issuer.conditions conditionTypeReady = some rc →
      isTerminallyFailed (some rc) issuer.generation = false →
      (inp.ignoreResult = none ∨ inp.ignoreResult = some (Except.ok false)) →
      (∀ e, (hasReportedError inp.registry inp.key).1 = some e →
        rc.status = ConditionStatus.condTrue →
        (reconcileStatusPatch inp).checkCalled = false ∧
        (reconcileStatusPatch inp).reconcileError =
          (if isPermanentError e then ReconcileError.terminalError e
            else ReconcileError.retryableError e)) ∧
      ((hasReportedError inp.registry inp.key).1 = none ∨
          rc.status ≠ ConditionStatus.condTrue →
        (reconcileStatusPatch inp).checkCalled = true)) := by
  constructor
  · intro p hp
    rw [reconcileStatusPatch_registry] at hp
    simp only [hasReportedError, List.mem_filter, decide_eq_true_eq] at hp
    exact hp.2
  · intro issuer rc hget hc hterm hign
    have hbranch := reconcileStatusPatch_eq_checkStage inp issuer rc hget hc hterm hign
    constructor
    · intro e he htrue
      rw [hbranch]
      rcases Bool.eq_false_or_eq_true (isPermanentError e) with hp | hp <;>
        simp [checkStageOutput, he, htrue, hp, effectiveCheckError]
    · intro hnone
      rw [hbranch]
      have hfr : (decide (rc.status = ConditionStatus.condTrue) &&
          (hasReportedError inp.registry inp.key).1.isSome) = false := by
        rcases hnone with hnone | hnone <;> simp [hnone]
      have heff : effectiveCheckError (hasReportedError inp.registry inp.key).1
          rc inp.checkResult = inp.checkResult := by
        rw [effectiveCheckError, hfr]
        simp
      rw [checkStageOutput]
      simp only [hfr, heff]
      cases hcr : inp.checkResult <;> simp [hcr] <;> (try split) <;> rfl

/-- Concrete instantiation of `registryConsumedFirstAndGatedOnReadyTrue`:
a Ready=True issuer with a deposited registry error has that error
consumed, folded in as a retryable failure, and the registry cleared,
without invoking Check. -/
def wReadyCond : IssuerCondition :=
  ⟨"Ready", ConditionStatus.condTrue, "Checked", "checked", 70, 3⟩

/-- Fixture: an issuer at generation 70 carrying `wReadyCond`. -/
def wReadyIssuer : IssuerObject := ⟨70, [wReadyCond]⟩

/-- Fixture: a pass over `wReadyIssuer` with a deposited registry error. -/
def wReadyInput : IssuerReconcilerInput :=
  ⟨[("ns1/issuer-1", GoError.base "boom")], "ns1/issuer-1",
    GetResult.found wReadyIssuer, none, none, "owner", 9⟩

/-- Concrete instantiation of `registryConsumedFirstAndGatedOnReadyTrue`. -/
theorem registryConsumedFirstAndGatedOnReadyTrue_witness :
    ((reconcileStatusPatch wReadyInput).registry = [] ∧
      (reconcileStatusPatch wReadyInput).checkCalled = false ∧
      (reconcileStatusPatch wReadyInput).reconcileError =
        ReconcileError.retryableError (GoError.base "boom")) := by
  have h := registryConsumedFirstAndGatedOnReadyTrue wReadyInput
  have h2 := (h.2 wReadyIssuer wReadyCond rfl (by decide) (by decide)
    (Or.inl rfl)).1 (GoError.base "boom") (by decide) rfl
  refine ⟨?_, h2.1, ?_⟩
  · rw [reconcileStatusPatch_registry]
    decide
  · simpa [isPermanentError] using h2.2

/-- C2 counterexample: the claim as stated says that in every case other
than a deposited error meeting a Ready=True condition — in particular
whenever the current Ready condition is not True — the pass runs the
Check callback itself; but a pass over a terminally Failed issuer (whose
Ready condition is False, not True) never invokes Check, even with an
error deposited for its key. -/
theorem registryGateClaimCounterexample :
    getIssuerStatusCondition wFailedIssuer.conditions conditionTypeReady =
        some wFailedCond ∧
    wFailedCond.status ≠ ConditionStatus.condTrue ∧
    (reconcileStatusPatch wFailedInput).checkCalled = false := by
  refine ⟨by decide, by decide, ?_⟩
  simp [wFailedInput, reconcileStatusPatch, hasReportedError,
    getIssuerStatusCondition, wFailedIssuer, wFailedCond, isTerminallyFailed,
    conditionTypeReady, reasonFailed]

/-- C3: an issuer object with no Ready condition gets, on its first
reconciliation pass, a Ready condition with status Unknown, reason
Initializing and observedGeneration equal to the object's current
generation, and the pass returns immediately (no error) without invoking
the Check callback; Check can only run on a later pass, once a Ready
condition exists. -/
theorem missingConditionInitializesWithoutCheck
    (inp : IssuerReconcilerInput) (issuer : IssuerObject)
    (hget : inp.getResult = GetResult.found issuer)
    (hnone : getIssuerStatusCondition issuer.conditions conditionTypeReady = none)
    (hign : inp.ignoreResult = none ∨ inp.ignoreResult = some (Except.ok false)) :
    reconcileStatusPatch inp =
      { patch := some [⟨conditionTypeReady, ConditionStatus.condUnknown,
          reasonInitializing,
          inp.fieldOwner ++ " has started reconciling this Issuer",
          issuer.generation, inp.now⟩],
        reconcileError := ReconcileError.noError, checkCalled := false,
        events := [],
        registry := (hasReportedError inp.registry inp.key).2 } := by
  rcases hign with hign | hign <;>
    simp [reconcileStatusPatch, hget, hnone, hign, isTerminallyFailed,
      setIssuerStatusCondition]

/-- Fixture: an issuer at generation 70 with no conditions at all. -/
def wBareIssuer : IssuerObject := ⟨70, []⟩

/-- Fixture: a first pass over `wBareIssuer`. -/
def wBareInput : IssuerReconcilerInput :=
  ⟨[], "ns1/issuer-1", GetResult.found wBareIssuer, none,
    some (GoError.base "x"), "owner", 9⟩

/-- Concrete instantiation of `missingConditionInitializesWithoutCheck`. -/
theorem missingConditionInitializesWithoutCheck_witness :
    reconcileStatusPatch wBareInput =
      { patch := some [⟨"Ready", ConditionStatus.condUnknown, "Initializing",
          "owner has started reconciling this Issuer", 70, 9⟩],
        reconcileError := ReconcileError.noError, checkCalled := false,
        events := [], registry := [] } := by
  have h := missingConditionInitializesWithoutCheck wBareInput wBareIssuer
    rfl (by decide) (Or.inl rfl)
  simpa [wBareInput, hasReportedError, conditionTypeReady,
    reasonInitializing, wBareIssuer] using h

/-- C4: for every error obtained from the Check callback or from the
registry at the check stage: classification is by structural matching
through any depth of wrapping (`errors.As`), and a permanent error yields
Ready=False with reason Failed, message
"Issuer has failed permanently: <err>", and a non-retrying terminal
result, while every other error yields Ready=False with reason Pending,
message "Issuer is not ready yet: <err>", and a retryable error that
requeues with backoff. -/
theorem checkErrorClassification
    (inp : IssuerReconcilerInput) (issuer : IssuerObject)
    (rc : IssuerCondition) (e : GoError)
    (hget : inp.getResult = GetResult.found issuer)
    (hc : getIssuerStatusCondition issuer.conditions conditionTypeReady = some rc)
    (hterm : isTerminallyFailed (some rc) issuer.generation = false)
    (hign : inp.ignoreResult = none ∨ inp.ignoreResult = some (Except.ok false))
    (herr : effectiveCheckError (hasReportedError inp.registry inp.key).1
      rc inp.checkResult = some e) :
    (∀ pre, isPermanentError (GoError.wrapf pre e) = isPermanentError e) ∧
    (∀ inner, isPermanentError (GoError.permanentError inner) = true) ∧
    (∃ c, (reconcileStatusPatch inp).patch = some [c] ∧
      c.observedGeneration = issuer.generation ∧
      c.status = ConditionStatus.condFalse ∧
      (if isPermanentError e then
        c.reason = reasonFailed ∧
        c.message = "Issuer has failed permanently: " ++ e.message ∧
        (reconcileStatusPatch inp).reconcileError = ReconcileError.terminalError e
      else
        c.reason = reasonPending ∧
        c.message = "Issuer is not ready yet: " ++ e.message ∧
        (reconcileStatusPatch inp).reconcileError = ReconcileError.retryableError e)) := by
  refine ⟨fun _ => rfl, fun _ => rfl, ?_⟩
  have hbranch := reconcileStatusPatch_eq_checkStage inp issuer rc hget hc hterm hign
  rcases Bool.eq_false_or_eq_true (isPermanentError e) with hp | hp
  · refine ⟨setIssuerStatusCondition inp.now issuer.conditions issuer.generation
      conditionTypeReady ConditionStatus.condFalse reasonFailed
      ("Issuer has failed permanently: " ++ e.message), ?_, ?_, ?_, ?_⟩ <;>
      simp [hbranch, checkStageOutput, herr, hp, setIssuerStatusCondition, hc] <;>
      (try (split <;> simp))
  · refine ⟨setIssuerStatusCondition inp.now issuer.conditions issuer.generation
      conditionTypeReady ConditionStatus.condFalse reasonPending
      ("Issuer is not ready yet: " ++ e.message), ?_, ?_, ?_, ?_⟩ <;>
      simp [hbranch, checkStageOutput, herr, hp, setIssuerStatusCondition, hc] <;>
      (try (split <;> simp))

/-- Fixture: a deeply wrapped permanent error, as produced by a callback
that wraps `signer.PermanentError` in further context. -/
def wWrappedPermanent : GoError :=
  GoError.wrapf "sign: " (GoError.issuerError
    (GoError.permanentError (GoError.base "bad credentials")))

/-- Fixture: a pass over `wReadyIssuer` whose Check callback returns
`wWrappedPermanent`. -/
def wPermErrInput : IssuerReconcilerInput :=
  ⟨[], "ns1/issuer-1", GetResult.found wReadyIssuer, none,
    some wWrappedPermanent, "owner", 9⟩

/-- Concrete instantiation of `checkErrorClassification` on a wrapped
permanent error. -/
theorem checkErrorClassification_witness :
    ∃ c, (reconcileStatusPatch wPermErrInput).patch = some [c] ∧
      c.observedGeneration = 70 ∧
      c.status = ConditionStatus.condFalse ∧
      c.reason = "Failed" ∧
      c.message = "Issuer has failed permanently: sign: bad credentials" ∧
      (reconcileStatusPatch wPermErrInput).reconcileError =
        ReconcileError.terminalError wWrappedPermanent := by
  have h := (checkErrorClassification wPermErrInput wReadyIssuer wReadyCond
    wWrappedPermanent rfl (by decide) (by decide) (Or.inl rfl) (by decide)).2.2
  rcases h with ⟨c, hp, hg, hs, hrest⟩
  rw [if_pos (by decide)] at hrest
  exact ⟨c, hp, hg, hs, hrest.1, by simpa using hrest.2.1, hrest.2.2⟩

/-- C8: when the issuer object does not exist — at the initial store get
of the pass, or as a NotFound when applying the status patch — the pass
returns success with no error and no requeue; any other store get error
causes a requeue with backoff and no status patch is produced for that
pass. -/
theorem missingObjectIsSuccessOtherGetErrorRetries
    (inp : IssuerReconcilerInput) (applyResult : PatchApplyResult) :
    (inp.getResult = GetResult.notFound →
      reconcile inp applyResult =
        { reconcileError := ReconcileError.noError, patchSubmitted := none,
          checkCalled := false, events := [],
          registry := (hasReportedError inp.registry inp.key).2 }) ∧
    (∀ msg, inp.getResult = GetResult.getError msg →
      reconcile inp applyResult =
        { reconcileError :=
            ReconcileError.retryableError (GoError.base ("unexpected get error: " ++ msg)),
          patchSubmitted := none, checkCalled := false, events := [],
          registry := (hasReportedError inp.registry inp.key).2 }) ∧
    (∀ p, (reconcileStatusPatch inp).patch = some p →
      applyResult = PatchApplyResult.applyNotFound →
      (reconcile inp applyResult).reconcileError = ReconcileError.noError) := by
  refine ⟨?_, ?_, ?_⟩
  · intro h
    simp [reconcile, reconcileStatusPatch, h]
  · intro msg h
    simp [reconcile, reconcileStatusPatch, h]
  · intro p hp har
    simp [reconcile, hp, har]

/-- Fixture: a pass whose store get fails with NotFound. -/
def wNotFoundInput : IssuerReconcilerInput :=
  ⟨[("ns1/issuer-1", GoError.base "boom")], "ns1/issuer-1",
    GetResult.notFound, none, some (GoError.base "x"), "owner", 9⟩

/-- Concrete instantiation of
`missingObjectIsSuccessOtherGetErrorRetries`. -/
theorem missingObjectIsSuccessOtherGetErrorRetries_witness :
    reconcile wNotFoundInput PatchApplyResult.applySuccess =
      { reconcileError := ReconcileError.noError, patchSubmitted := none,
        checkCalled := false, events := [], registry := [] } := by
  have h := (missingObjectIsSuccessOtherGetErrorRetries wNotFoundInput
    PatchApplyResult.applySuccess).1 rfl
  simpa [wNotFoundInput, hasReportedError] using h

/-- C9: at the check stage, a pass that ends with a successful check
emits exactly one Normal event with reason Checked, a pass that ends with
a retryable failure emits exactly one Warning event with reason
RetryableError, and a pass that ends with a permanent failure emits
exactly one Warning event with reason PermanentError, each carrying the
message of the condition written by that pass. -/
theorem statusTransitionEmitsEvent
    (inp : IssuerReconcilerInput) (issuer : IssuerObject) (rc : IssuerCondition)
    (hget : inp.getResult = GetResult.found issuer)
    (hc : getIssuerStatusCondition issuer.conditions conditionTypeReady = some rc)
    (hterm : isTerminallyFailed (some rc) issuer.generation = false)
    (hign : inp.ignoreResult = none ∨ inp.ignoreResult = some (Except.ok false)) :
    ∃ c, (reconcileStatusPatch inp).patch = some [c] ∧
      (reconcileStatusPatch inp).events =
        (match effectiveCheckError (hasReportedError inp.registry inp.key).1
            rc inp.checkResult with
        | none => [⟨eventTypeNormal, eventIssuerChecked, c.message⟩]
        | some e =>
            if isPermanentError e then
              [⟨eventTypeWarning, eventIssuerPermanentError, c.message⟩]
            else
              [⟨eventTypeWarning, eventIssuerRetryableError, c.message⟩]) := by
  have hbranch := reconcileStatusPatch_eq_checkStage inp issuer rc hget hc hterm hign
  rw [hbranch, checkStageOutput]
  cases heff : effectiveCheckError (hasReportedError inp.registry inp.key).1
      rc inp.checkResult with
  | none => exact ⟨_, rfl, rfl⟩
  | some e =>
      rcases Bool.eq_false_or_eq_true (isPermanentError e) with hp | hp <;>
        simp [hp]

/-- Concrete instantiation of `statusTransitionEmitsEvent`: a successful
check on a Ready issuer emits a Normal Checked event carrying the
condition message. -/
def wCheckOkInput : IssuerReconcilerInput :=
  ⟨[], "ns1/issuer-1", GetResult.found wReadyIssuer, none, none, "owner", 9⟩

/-- Concrete instantiation of `statusTransitionEmitsEvent`. -/
theorem statusTransitionEmitsEvent_witness :
    ∃ c, (reconcileStatusPatch wCheckOkInput).patch = some [c] ∧
      (reconcileStatusPatch wCheckOkInput).events =
        [⟨"Normal", "Checked", c.message⟩] := by
  obtain ⟨c, hp, he⟩ := statusTransitionEmitsEvent wCheckOkInput wReadyIssuer
    wReadyCond rfl (by decide) (by decide) (Or.inl rfl)
  refine ⟨c, hp, ?_⟩
  rw [he]
  rfl

/-- C10: whenever a reconciliation pass computes a non-nil status patch,
the patch is submitted to the store before the pass's error is returned —
in particular a pass whose apply succeeds returns exactly the error
computed alongside the patch, terminal or retryable — and the pass makes
no status write exactly when the computed patch is nil. -/
theorem patchAppliedBeforeErrorReturned
    (inp : IssuerReconcilerInput) (applyResult : PatchApplyResult) :
    ((reconcile inp applyResult).patchSubmitted = (reconcileStatusPatch inp).patch) ∧
    (applyResult = PatchApplyResult.applySuccess →
      (reconcile inp applyResult).reconcileError =
        (reconcileStatusPatch inp).reconcileError) := by
  constructor
  · rw [reconcile]
    cases hp : (reconcileStatusPatch inp).patch with
    | none => rfl
    | some p => cases applyResult <;> simp
  · intro ha
    rw [reconcile, ha]
    cases hp : (reconcileStatusPatch inp).patch <;> simp

/-- Concrete instantiation of `patchAppliedBeforeErrorReturned`: a failing
check has its False/Pending patch submitted and the retryable error
returned. -/
theorem patchAppliedBeforeErrorReturned_witness :
    (reconcile wBareInput PatchApplyResult.applySuccess).patchSubmitted =
        (reconcileStatusPatch wBareInput).patch ∧
      (reconcile wBareInput PatchApplyResult.applySuccess).reconcileError =
        (reconcileStatusPatch wBareInput).reconcileError := by
  have h := patchAppliedBeforeErrorReturned wBareInput PatchApplyResult.applySuccess
  exact ⟨h.1, h.2 rfl⟩

/-- The sign-stage tail of `reconcileRequestStatusPatch`, reached when
the request has a live Ready condition and the referenced trust-anchor's
Ready condition is present, up to date, and True: `Sign` runs and its
result is classified. -/
def signStageOutput (inp : RequestReconcilerInput) : RequestPatchOutput :=
  let req := inp.request
  let mkCond := fun (status : ConditionStatus) (reason msg : String) =>
    setIssuerStatusCondition inp.now req.conditions req.generation
      conditionTypeReady status reason msg
  match inp.signResult with
  | .ok bundle =>
      let c := mkCond ConditionStatus.condTrue reasonIssued "issued"
      { patch := some [c], reconcileError := .noError,
        signCalled := true, signedBundle := some bundle,
        deposited := none, firstFailureTime := none }
  | .error e =>
      match asIssuerError e with
      | some inner =>
          let c := mkCond ConditionStatus.condFalse reasonPending
            "Issuer is not Ready yet. Current ready condition is outdated. Waiting for it to become ready."
          { patch := some [c], reconcileError := .retryableError e,
            signCalled := true, signedBundle := none,
            deposited := some inner,
            firstFailureTime := inp.firstFailureTime }
      | none =>
          let fft :=
            if isPermanentError e || isPendingError e then
              inp.firstFailureTime
            else some (inp.firstFailureTime.getD inp.now)
          let pastMaxRetry : Bool :=
            decide (inp.maxRetryDuration <
              inp.now - (inp.firstFailureTime.getD inp.now))
          if isPermanentError e || (!isPendingError e && pastMaxRetry) then
            let c := mkCond ConditionStatus.condFalse reasonFailed
              ("Failed permanently to sign the CertificateRequest: " ++ e.message)
            { patch := some [c], reconcileError := .terminalError e,
              signCalled := true, signedBundle := none,
              deposited := none, firstFailureTime := fft }
          else
            let c := mkCond ConditionStatus.condFalse reasonPending
              ("Failed to sign the CertificateRequest, will retry: " ++ e.message)
            { patch := some [c], reconcileError := .retryableError e,
              signCalled := true, signedBundle := none,
              deposited := none, firstFailureTime := fft }

/-- Helper: a request pass with a live (non-terminal) Ready condition
whose referenced trust-anchor is found with an up-to-date Ready=True
condition reduces to `signStageOutput`. -/
theorem reconcileRequest_eq_signStage
    (inp : RequestReconcilerInput) (rcc : IssuerCondition)
    (issuer : IssuerObject) (ic : IssuerCondition)
    (hrc : getIssuerStatusCondition inp.request.conditions conditionTypeReady = some rcc)
    (hterm : isTerminallyFailed (some rcc) inp.request.generation = false)
    (hget : inp.issuerGet = GetResult.found issuer)
    (hic : getIssuerStatusCondition issuer.conditions conditionTypeReady = some ic)
    (hgen : ¬ ic.observedGeneration < issuer.generation)
    (htrue : ic.status = ConditionStatus.condTrue) :
    reconcileRequestStatusPatch inp = signStageOutput inp := by
  simp [reconcileRequestStatusPatch, signStageOutput, hrc, hterm, hget, hic,
    hgen, htrue]

/-- C5: a transient (not Pending-, Permanent- or Issuer-classified) sign
failure arriving when the failure incident has lasted longer than
MaxRetryDuration is reported identically to a Permanent failure — the
produced status patch and retry record are exactly those of the same pass
with the error wrapped in a PermanentError, the pass returns a
non-retrying terminal result, the request is marked Ready=False with
reason Failed at the current generation — and every subsequent pass over
the so-patched request returns done without calling Sign. -/
theorem transientFailurePastMaxRetryEscalates
    (inp : RequestReconcilerInput) (rcc : IssuerCondition)
    (issuer : IssuerObject) (ic : IssuerCondition) (e : GoError) (t : Nat)
    (hrc : getIssuerStatusCondition inp.request.conditions conditionTypeReady = some rcc)
    (hterm : isTerminallyFailed (some rcc) inp.request.generation = false)
    (hget : inp.issuerGet = GetResult.found issuer)
    (hic : getIssuerStatusCondition issuer.conditions conditionTypeReady = some ic)
    (hgen : ¬ ic.observedGeneration < issuer.generation)
    (htrue : ic.status = ConditionStatus.condTrue)
    (hsign : inp.signResult = Except.error e)
    (hiss : asIssuerError e = none)
    (hperm : isPermanentError e = false)
    (hpend : isPendingError e = false)
    (hfft : inp.firstFailureTime = some t)
    (hpast : inp.maxRetryDuration < inp.now - t) :
    ((reconcileRequestStatusPatch inp).patch =
      (reconcileRequestStatusPatch
        { inp with signResult := Except.error (GoError.permanentError e) }).patch ∧
    (reconcileRequestStatusPatch inp).firstFailureTime =
      (reconcileRequestStatusPatch
        { inp with signResult := Except.error (GoError.permanentError e) }).firstFailureTime ∧
    (reconcileRequestStatusPatch inp).reconcileError =
      ReconcileError.terminalError e) ∧
    (∃ c, (reconcileRequestStatusPatch inp).patch = some [c] ∧
      c.condType = conditionTypeReady ∧
      c.status = ConditionStatus.condFalse ∧
      c.reason = reasonFailed ∧
      c.observedGeneration = inp.request.generation) ∧
    (∀ inp2 : RequestReconcilerInput, ∀ c : IssuerCondition,
      (reconcileRequestStatusPatch inp).patch = some [c] →
      inp2.request.generation = inp.request.generation →
      inp2.request.conditions = [c] →
      (reconcileRequestStatusPatch inp2).signCalled = false ∧
      (reconcileRequestStatusPatch inp2).patch = none) := by
  have hstage := reconcileRequest_eq_signStage inp rcc issuer ic hrc hterm hget
    hic hgen htrue
  have hstage2 := reconcileRequest_eq_signStage
    { inp with signResult := Except.error (GoError.permanentError e) }
    rcc issuer ic hrc hterm hget hic hgen htrue
  have hout : reconcileRequestStatusPatch inp =
      { patch := some [setIssuerStatusCondition inp.now inp.request.conditions
          inp.request.generation conditionTypeReady ConditionStatus.condFalse
          reasonFailed
          ("Failed permanently to sign the CertificateRequest: " ++ e.message)],
        reconcileError := ReconcileError.terminalError e, signCalled := true,
        signedBundle := none, deposited := none,
        firstFailureTime := some t } := by
    rw [hstage, signStageOutput]
    simp [hsign, hiss, hperm, hpend, hfft, hpast]
  have hout2 : reconcileRequestStatusPatch
      { inp with signResult := Except.error (GoError.permanentError e) } =
      { patch := some [setIssuerStatusCondition inp.now inp.request.conditions
          inp.request.generation conditionTypeReady ConditionStatus.condFalse
          reasonFailed
          ("Failed permanently to sign the CertificateRequest: " ++ e.message)],
        reconcileError := ReconcileError.terminalError (GoError.permanentError e),
        signCalled := true, signedBundle := none, deposited := none,
        firstFailureTime := some t } := by
    rw [hstage2, signStageOutput]
    simp [asIssuerError, hiss, hfft, isPermanentError, GoError.message]
  have hfields :
      (setIssuerStatusCondition inp.now inp.request.conditions
        inp.request.generation conditionTypeReady ConditionStatus.condFalse
        reasonFailed
        ("Failed permanently to sign the CertificateRequest: " ++ e.message)).condType =
          conditionTypeReady ∧
      (setIssuerStatusCondition inp.now inp.request.conditions
        inp.request.generation conditionTypeReady ConditionStatus.condFalse
        reasonFailed
        ("Failed permanently to sign the CertificateRequest: " ++ e.message)).status =
          ConditionStatus.condFalse ∧
      (setIssuerStatusCondition inp.now inp.request.conditions
        inp.request.generation conditionTypeReady ConditionStatus.condFalse
        reasonFailed
        ("Failed permanently to sign the CertificateRequest: " ++ e.message)).reason =
          reasonFailed ∧
      (setIssuerStatusCondition inp.now inp.request.conditions
        inp.request.generation conditionTypeReady ConditionStatus.condFalse
        reasonFailed
        ("Failed permanently to sign the CertificateRequest: " ++ e.message)).observedGeneration =
          inp.request.generation := by
    rw [setIssuerStatusCondition, hrc]
    split <;> (try split) <;> simp
  refine ⟨⟨by rw [hout, hout2], by rw [hout, hout2], by rw [hout]⟩,
    ⟨_, by rw [hout], hfields.1, hfields.2.1, hfields.2.2.1, hfields.2.2.2⟩, ?_⟩
  intro inp2 c hpc hgen2 hconds
  rw [hout] at hpc
  have hceq : c = setIssuerStatusCondition inp.now inp.request.conditions
      inp.request.generation conditionTypeReady ConditionStatus.condFalse
      reasonFailed
      ("Failed permanently to sign the CertificateRequest: " ++ e.message) := by
    have := hpc
    simp at this
    exact this.symm
  have hrc2 : getIssuerStatusCondition inp2.request.conditions conditionTypeReady =
      some c := by
    rw [hconds]
    simp [getIssuerStatusCondition, hceq, hfields.1]
  have hterm2 : isTerminallyFailed (some c) inp2.request.generation = true := by
    rw [isTerminallyFailed]
    rw [hceq] at *
    simp [hfields.2.1, hfields.2.2.1, hgen2, hfields.2.2.2]
  constructor <;> simp [reconcileRequestStatusPatch, hrc2, hterm2]

/-- Fixture: a request Ready condition False/Pending at generation 5. -/
def wReqPendingCond : IssuerCondition :=
  ⟨"Ready", ConditionStatus.condFalse, "Pending", "waiting", 5, 2⟩

/-- Fixture: a request at generation 5 carrying `wReqPendingCond`. -/
def wReqPending : RequestObject := ⟨5, [wReqPendingCond]⟩

/-- Fixture: a sign pass over `wReqPending` whose Sign fails with a plain
transient error, with a retry incident begun at time 10 that exceeds the
MaxRetryDuration of 3 at time 20. -/
def wEscalateInput : RequestReconcilerInput :=
  ⟨wReqPending, GetResult.found wReadyIssuer,
    Except.error (GoError.base "sign fail"), some 10, 3, 20⟩

/-- Fixture: the Ready condition written by the escalated pass of
`wEscalateInput`. -/
def wEscalatedCond : IssuerCondition :=
  ⟨"Ready", ConditionStatus.condFalse, "Failed",
    "Failed permanently to sign the CertificateRequest: sign fail", 5, 2⟩

/-- Fixture: a follow-up pass over the request patched by
`wEscalateInput`. -/
def wFrozenInput : RequestReconcilerInput :=
  ⟨⟨5, [wEscalatedCond]⟩, GetResult.found wReadyIssuer,
    Except.ok "cert", none, 3, 25⟩

/-- Concrete instantiation of `transientFailurePastMaxRetryEscalates`. -/
theorem transientFailurePastMaxRetryEscalates_witness :
    (reconcileRequestStatusPatch wEscalateInput).patch =
        (reconcileRequestStatusPatch
          { wEscalateInput with
            signResult := Except.error
              (GoError.permanentError (GoError.base "sign fail")) }).patch ∧
      (reconcileRequestStatusPatch wEscalateInput).reconcileError =
        ReconcileError.terminalError (GoError.base "sign fail") ∧
      (reconcileRequestStatusPatch wFrozenInput).signCalled = false ∧
      (reconcileRequestStatusPatch wFrozenInput).patch = none := by
  have h := transientFailurePastMaxRetryEscalates wEscalateInput wReqPendingCond
    wReadyIssuer wReadyCond (GoError.base "sign fail") 10
    (by decide) (by decide) rfl (by decide) (by decide) rfl rfl rfl rfl rfl rfl
    (by decide)
  have hfreeze := h.2.2 wFrozenInput wEscalatedCond (by decide) rfl rfl
  exact ⟨h.1.1, h.1.2.2, hfreeze.1, hfreeze.2⟩

/-- C6: a sign failure classified as Pending never advances the
retry-incident clock and never escalates: even when the elapsed time
since the failure incident began exceeds MaxRetryDuration, the pass
leaves the retry record untouched, writes a retryable False/Pending
condition, and a later pass whose Sign succeeds still brings the request
to Ready=True with reason Issued and stores the signed bundle. -/
theorem pendingSignFailureDoesNotEscalate
    (inp : RequestReconcilerInput) (rcc : IssuerCondition)
    (issuer : IssuerObject) (ic : IssuerCondition) (e : GoError) (t : Nat)
    (hrc : getIssuerStatusCondition inp.request.conditions conditionTypeReady = some rcc)
    (hterm : isTerminallyFailed (some rcc) inp.request.generation = false)
    (hget : inp.issuerGet = GetResult.found issuer)
    (hic : getIssuerStatusCondition issuer.conditions conditionTypeReady = some ic)
    (hgen : ¬ ic.observedGeneration < issuer.generation)
    (htrue : ic.status = ConditionStatus.condTrue)
    (hsign : inp.signResult = Except.error e)
    (hiss : asIssuerError e = none)
    (hperm : isPermanentError e = false)
    (hpend : isPendingError e = true)
    (hfft : inp.firstFailureTime = some t)
    (hpast : inp.maxRetryDuration < inp.now - t) :
    (reconcileRequestStatusPatch inp).firstFailureTime = inp.firstFailureTime ∧
    (reconcileRequestStatusPatch inp).reconcileError =
      ReconcileError.retryableError e ∧
    (∃ c, (reconcileRequestStatusPatch inp).patch = some [c] ∧
      c.condType = conditionTypeReady ∧
      c.status = ConditionStatus.condFalse ∧
      c.reason = reasonPending ∧
      c.observedGeneration = inp.request.generation) ∧
    (∀ inp2 : RequestReconcilerInput, ∀ issuer2 : IssuerObject,
      ∀ ic2 c : IssuerCondition, ∀ b : String,
      (reconcileRequestStatusPatch inp).patch = some [c] →
      inp2.request.conditions = [c] →
      inp2.issuerGet = GetResult.found issuer2 →
      getIssuerStatusCondition issuer2.conditions conditionTypeReady = some ic2 →
      ¬ ic2.observedGeneration < issuer2.generation →
      ic2.status = ConditionStatus.condTrue →
      inp2.signResult = Except.ok b →
      ∃ c2, (reconcileRequestStatusPatch inp2).patch = some [c2] ∧
        c2.status = ConditionStatus.condTrue ∧
        c2.reason = reasonIssued ∧
        (reconcileRequestStatusPatch inp2).signedBundle = some b) := by
  have hstage := reconcileRequest_eq_signStage inp rcc issuer ic hrc hterm hget
    hic hgen htrue
  have hout : reconcileRequestStatusPatch inp =
      { patch := some [setIssuerStatusCondition inp.now inp.request.conditions
          inp.request.generation conditionTypeReady ConditionStatus.condFalse
          reasonPending
          ("Failed to sign the CertificateRequest, will retry: " ++ e.message)],
        reconcileError := ReconcileError.retryableError e, signCalled := true,
        signedBundle := none, deposited := none,
        firstFailureTime := inp.firstFailureTime } := by
    rw [hstage, signStageOutput]
    simp [hsign, hiss, hperm, hpend]
  have hfields :
      (setIssuerStatusCondition inp.now inp.request.conditions
        inp.request.generation conditionTypeReady ConditionStatus.condFalse
        reasonPending
        ("Failed to sign the CertificateRequest, will retry: " ++ e.message)).condType =
          conditionTypeReady ∧
      (setIssuerStatusCondition inp.now inp.request.conditions
        inp.request.generation conditionTypeReady ConditionStatus.condFalse
        reasonPending
        ("Failed to sign the CertificateRequest, will retry: " ++ e.message)).status =
          ConditionStatus.condFalse ∧
      (setIssuerStatusCondition inp.now inp.request.conditions
        inp.request.generation conditionTypeReady ConditionStatus.condFalse
        reasonPending
        ("Failed to sign the CertificateRequest, will retry: " ++ e.message)).reason =
          reasonPending ∧
      (setIssuerStatusCondition inp.now inp.request.conditions
        inp.request.generation conditionTypeReady ConditionStatus.condFalse
        reasonPending
        ("Failed to sign the CertificateRequest, will retry: " ++ e.message)).observedGeneration =
          inp.request.generation := by
    rw [setIssuerStatusCondition, hrc]
    split <;> (try split) <;> simp
  refine ⟨by rw [hout], by rw [hout],
    ⟨_, by rw [hout], hfields.1, hfields.2.1, hfields.2.2.1, hfields.2.2.2⟩, ?_⟩
  intro inp2 issuer2 ic2 c b hpc hconds hget2 hic2 hgen2 htrue2 hsign2
  rw [hout] at hpc
  have hceq : c = setIssuerStatusCondition inp.now inp.request.conditions
      inp.request.generation conditionTypeReady ConditionStatus.condFalse
      reasonPending
      ("Failed to sign the CertificateRequest, will retry: " ++ e.message) := by
    have := hpc
    simp at this
    exact this.symm
  have hrc2 : getIssuerStatusCondition inp2.request.conditions conditionTypeReady =
      some c := by
    rw [hconds]
    rw [hceq]
    simp [getIssuerStatusCondition, hfields.1]
  have hterm2 : isTerminallyFailed (some c) inp2.request.generation = false := by
    rw [isTerminallyFailed]
    have hr : c.reason = reasonPending := by
      rw [hceq]
      exact hfields.2.2.1
    simp [hr, reasonPending, reasonFailed]
  have hstage2 := reconcileRequest_eq_signStage inp2 c issuer2 ic2 hrc2 hterm2
    hget2 hic2 hgen2 htrue2
  rw [hstage2, signStageOutput]
  simp only [hsign2]
  have hcs : c.status = ConditionStatus.condFalse := by
    rw [hceq]
    exact hfields.2.1
  refine ⟨setIssuerStatusCondition inp2.now inp2.request.conditions
    inp2.request.generation conditionTypeReady ConditionStatus.condTrue
    reasonIssued "issued", ?_, ?_, ?_, ?_⟩ <;>
    simp [setIssuerStatusCondition, hrc2, hcs]

/-- Fixture: a sign pass over `wReqPending` whose Sign fails with a
PendingError, with a retry incident begun at time 10 that exceeds the
MaxRetryDuration of 3 at time 20. -/
def wPendingErrInput : RequestReconcilerInput :=
  ⟨wReqPending, GetResult.found wReadyIssuer,
    Except.error (GoError.pendingError (GoError.base "waiting on CA")),
    some 10, 3, 20⟩

/-- Fixture: the Ready condition written by the pass of
`wPendingErrInput`. -/
def wRetriedCond : IssuerCondition :=
  ⟨"Ready", ConditionStatus.condFalse, "Pending",
    "Failed to sign the CertificateRequest, will retry: waiting on CA", 5, 2⟩

/-- Fixture: a follow-up pass over the request patched by
`wPendingErrInput`, whose Sign now succeeds. -/
def wRecoverInput : RequestReconcilerInput :=
  ⟨⟨5, [wRetriedCond]⟩, GetResult.found wReadyIssuer,
    Except.ok "cert", some 10, 3, 25⟩

/-- Concrete instantiation of `pendingSignFailureDoesNotEscalate`. -/
theorem pendingSignFailureDoesNotEscalate_witness :
    (reconcileRequestStatusPatch wPendingErrInput).firstFailureTime = some 10 ∧
      (reconcileRequestStatusPatch wPendingErrInput).reconcileError =
        ReconcileError.retryableError
          (GoError.pendingError (GoError.base "waiting on CA")) ∧
      ∃ c2, (reconcileRequestStatusPatch wRecoverInput).patch = some [c2] ∧
        c2.status = ConditionStatus.condTrue ∧
        c2.reason = reasonIssued ∧
        (reconcileRequestStatusPatch wRecoverInput).signedBundle = some "cert" := by
  have h := pendingSignFailureDoesNotEscalate wPendingErrInput wReqPendingCond
    wReadyIssuer wReadyCond (GoError.pendingError (GoError.base "waiting on CA")) 10
    (by decide) (by decide) rfl (by decide) (by decide) rfl rfl rfl rfl rfl rfl
    (by decide)
  have hrec := h.2.2.2 wRecoverInput wReadyIssuer wReadyCond wRetriedCond "cert"
    (by decide) rfl rfl (by decide) (by decide) rfl rfl
  exact ⟨h.1, h.2.1, hrec⟩

/-- C7: whenever the request reconciler finds the referenced
trust-anchor's Ready condition present, up to date (observedGeneration
not behind the generation), and not True, the request's Ready condition
is set to False/Pending with a message embedding the trust-anchor's own
reason and message verbatim, without calling Sign; this holds for every
trust-anchor reason, in particular Pending and Failed. -/
theorem issuerNotReadyEchoedOnRequest
    (inp : RequestReconcilerInput) (rcc : IssuerCondition)
    (issuer : IssuerObject) (ic : IssuerCondition)
    (hrc : getIssuerStatusCondition inp.request.conditions conditionTypeReady = some rcc)
    (hterm : isTerminallyFailed (some rcc) inp.request.generation = false)
    (hget : inp.issuerGet = GetResult.found issuer)
    (hic : getIssuerStatusCondition issuer.conditions conditionTypeReady = some ic)
    (hgen : ¬ ic.observedGeneration < issuer.generation)
    (hnottrue : ic.status ≠ ConditionStatus.condTrue) :
    ∃ c, (reconcileRequestStatusPatch inp).patch = some [c] ∧
      c.status = ConditionStatus.condFalse ∧
      c.reason = reasonPending ∧
      c.message = "Issuer is not Ready yet. Current ready condition is \"" ++
        ic.reason ++ "\": " ++ ic.message ++ ". Waiting for it to become ready." ∧
      (reconcileRequestStatusPatch inp).signCalled = false := by
  have hout : reconcileRequestStatusPatch inp =
      { patch := some [setIssuerStatusCondition inp.now inp.request.conditions
          inp.request.generation conditionTypeReady ConditionStatus.condFalse
          reasonPending
          ("Issuer is not Ready yet. Current ready condition is \"" ++
            ic.reason ++ "\": " ++ ic.message ++ ". Waiting for it to become ready.")],
        reconcileError := ReconcileError.noError, signCalled := false,
        signedBundle := none, deposited := none,
        firstFailureTime := inp.firstFailureTime } := by
    simp [reconcileRequestStatusPatch, hrc, hterm, hget, hic, hgen, hnottrue]
  refine ⟨_, by rw [hout], ?_, ?_, ?_, by rw [hout]⟩ <;>
    rw [setIssuerStatusCondition, hrc] <;>
    split <;> (try split) <;> simp

/-- Fixture: a request pass whose referenced trust-anchor carries the
terminal Failed condition `wFailedCond`, up to date at generation 70. -/
def wEchoInput : RequestReconcilerInput :=
  ⟨wReqPending, GetResult.found wFailedIssuer,
    Except.ok "unused", none, 3, 20⟩

/-- Concrete instantiation of `issuerNotReadyEchoedOnRequest`. -/
theorem issuerNotReadyEchoedOnRequest_witness :
    ∃ c, (reconcileRequestStatusPatch wEchoInput).patch = some [c] ∧
      c.status = ConditionStatus.condFalse ∧
      c.reason = "Pending" ∧
      c.message = "Issuer is not Ready yet. Current ready condition is \"Failed\": Issuer has failed permanently: bad config. Waiting for it to become ready." ∧
      (reconcileRequestStatusPatch wEchoInput).signCalled = false := by
  have h := issuerNotReadyEchoedOnRequest wEchoInput wReqPendingCond
    wFailedIssuer wFailedCond (by decide) (by decide) rfl (by decide)
    (by decide) (by decide)
  simpa using h

end IssuerLib
